import Mathlib

/-!
Verification of the goolog logging crate.

The repository contains two revisions of the same small core:
* the std/fern revision (`src/lib.rs`, `src/macros.rs`): `init_logger` builds a
  `fern::Dispatch` with a colorized formatter (`generate_log`), a stdout chain at
  the configured level and an optional file chain hardcoded at `Info`, plus the
  `INTERNAL__LOGGER_ACTIVE` once-latch and a `fatal!` macro using the
  `$goolog:fatal=` sentinel and `std::process::exit(1)`;
* the no-std/spin revision (`src/logger/mod.rs`, `src/logger/band_aid_fix.rs`,
  `src/macros/mod.rs`, `src/macros/on_fatal.rs`): a `Result`-returning
  `init_logger` guarded by a mutex, a mutable global `TARGET_LENGTH`, a single
  `println` sink, and a `fatal!` macro driven by the `ON_FATAL` callback.

Strings are modelled as `List Char` (Rust `char` iteration works on Unicode
scalar values, exactly Lean's `Char`).  Machine integers that matter (`u8`
target length, `u32` width) stay in `Nat`; no arithmetic in the sources
overflows.
-/

namespace Goolog

/-- The five levels of the `log` crate.  In the `log` crate the numeric
discriminants are Error = 1 .. Trace = 5, and `a <= b` compares those
numbers, so `Error` is the most severe level. -/
inductive Level
  | trace
  | debug
  | info
  | warn
  | error
deriving DecidableEq, Repr

/-- Numeric value of a level, as in the `log` crate (`Error = 1`, `Trace = 5`). -/
def Level.num : Level → Nat
  | .error => 1
  | .warn => 2
  | .info => 3
  | .debug => 4
  | .trace => 5

/-- The `Display` name of a level in the `log` crate (upper case). -/
def Level.name : Level → List Char
  | .trace => ("TRACE").data
  | .debug => ("DEBUG").data
  | .info => ("INFO").data
  | .warn => ("WARN").data
  | .error => ("ERROR").data

/-- `log::LevelFilter`: `Off = 0` or a level's number. -/
inductive LevelFilter
  | off
  | lvl (l : Level)
deriving DecidableEq, Repr

/-- Numeric value of a filter (`Off = 0`). -/
def LevelFilter.num : LevelFilter → Nat
  | .off => 0
  | .lvl l => l.num

/-- `level <= filter` in the `log` crate: a record at level `l` passes the
filter `f` iff its number is at most the filter's number. -/
def passes (l : Level) (f : LevelFilter) : Bool :=
  l.num ≤ f.num

/-- UTF-8 byte size of one scalar value, as Rust's `char::len_utf8`. -/
def charUtf8Size (c : Char) : Nat :=
  if c.toNat < 128 then 1
  else if c.toNat < 2048 then 2
  else if c.toNat < 65536 then 3
  else 4

/-- Rust `str::len`: the UTF-8 byte length of a string. -/
def utf8Len (s : List Char) : Nat :=
  (s.map charUtf8Size).sum

/-- `n` ASCII spaces. -/
def spaceRep (n : Nat) : List Char :=
  List.replicate n ' '

/-- The loop body of `to_fixed_size` (`src/lib.rs` lines 100-108): run the
char iterator for `n` steps, pushing the next char when present and a space
otherwise. -/
def toFixedSizeGo : Nat → List Char → List Char
  | 0, _ => []
  | n + 1, [] => ' ' :: toFixedSizeGo n []
  | n + 1, c :: cs => c :: toFixedSizeGo n cs

/-- `to_fixed_size` from `src/lib.rs` lines 95-111: width 0 returns the name
unchanged, otherwise exactly `maxNameLength` iterations of char-or-space. -/
def to_fixed_size (maxNameLength : Nat) (name : List Char) : List Char :=
  if maxNameLength = 0 then name
  else toFixedSizeGo maxNameLength name

/-- The target rendering inside `Log::log` of `src/logger/mod.rs` lines
104-121.  Note the source computes `name_len = name.len()` — the UTF-8 *byte*
length — and then both compares it against the width and uses it as the count
of characters already present when computing the padding. -/
def renderTargetNoStd (maxNameLength : Nat) (name : List Char) : List Char :=
  if maxNameLength = 0 then name
  else if utf8Len name ≥ maxNameLength then name.take maxNameLength
  else name ++ spaceRep (maxNameLength - utf8Len name)

/-- The separator `" | "` used between all line components. -/
def sep : List Char :=
  (" | ").data

/-- Rust's `format!` width/precision spec `{:14.14}`: truncate the rendered
string to 14 characters, then left-align and pad with spaces to 14. -/
def fmt14 (s : List Char) : List Char :=
  if s.length ≥ 14 then s.take 14
  else s ++ spaceRep (14 - s.length)

/-- The fatal sentinel `"$goolog:fatal="` (`src/macros.rs` line 254,
`src/lib.rs` line 40). -/
def sentinel : List Char :=
  ("$goolog:fatal=").data

/-- Rust `str::strip_prefix` on char lists: `some` of the remainder when the
pattern is a leading segment, `none` otherwise. -/
def peelOff : List Char → List Char → Option (List Char)
  | [], s => some s
  | _ :: _, [] => none
  | p :: ps, c :: cs => if p = c then peelOff ps cs else none

/-- One pass of Rust `str::replace`, fuelled: at each position, either the
pattern matches and is replaced, or one char is copied.  Each step consumes at
least one char of the remaining input (the pattern, when empty, never fires
here because `replace` is only used with the nonempty pattern `"ERROR"`), so
fuel equal to the input length always suffices. -/
def replaceAllGo (pat rep : List Char) : Nat → List Char → List Char
  | 0, s => s
  | _, [] => []
  | fuel + 1, c :: cs =>
    match peelOff pat (c :: cs) with
    | some r =>
      match pat with
      | [] => c :: replaceAllGo pat rep fuel cs
      | _ :: _ => rep ++ replaceAllGo pat rep fuel r
    | none => c :: replaceAllGo pat rep fuel cs

/-- Rust `str::replace`: replace every occurrence of `pat` by `rep`. -/
def replaceAll (pat rep s : List Char) : List Char :=
  replaceAllGo pat rep s.length s

/-- `fern::colors::Color::to_fg_str` for the five colors configured in
`src/lib.rs` lines 129-134 (debug blue, error red, info green, trace white,
warn yellow). -/
def colorCode : Level → List Char
  | .debug => ("34").data
  | .error => ("31").data
  | .info => ("32").data
  | .trace => ("37").data
  | .warn => ("33").data

/-- `ColoredLevelConfig::color(level).to_string()`: the level name wrapped in
an ANSI foreground color escape and a reset
(`"\x1b[{code}m{LEVEL}\x1b[0m"`).  For every level this is exactly 14
characters, which is why the `{:14.14}` field spec leaves it intact. -/
def coloredLevel (l : Level) : List Char :=
  ("\x1b[").data ++ colorCode l ++ ("m").data ++ l.name ++ ("\x1b[0m").data

/-- The chrono format fragments `\x1b[2m\x1b[1m…\x1b[0m` of `src/lib.rs` line
49: dim + bold around a timestamp component, then reset. -/
def dimBold (s : List Char) : List Char :=
  ("\x1b[2m\x1b[1m").data ++ s ++ ("\x1b[0m").data

/-- The sentinel rewrite inside `generate_log` (`src/lib.rs` lines 38-44,
compiled when the `std_fatal` feature is off): for an `Error` record whose
message starts with `"$goolog:fatal="`, replace `"ERROR"` by `"FATAL"` in the
colored level string and keep only the suffix of the message. -/
def fatalRewrite (level : Level) (logLevel message : List Char) :
    List Char × List Char :=
  if level = .error then
    match peelOff sentinel message with
    | some val => (replaceAll (("ERROR").data) (("FATAL").data) logLevel, val)
    | none => (logLevel, message)
  else (logLevel, message)

/-- `generate_log` from `src/lib.rs` lines 34-55 (features `timestamp` on,
`std_fatal` off), with the two chrono components passed in as the captured
`date` and `time` strings:
`"{dim-bold date} | {dim-bold time} | {target fixed} | {level :14.14} | {message}"`. -/
def generate_log (maxNameLength : Nat) (date time target : List Char)
    (level : Level) (message : List Char) : List Char :=
  dimBold date ++ sep ++ dimBold time ++ sep
    ++ to_fixed_size maxNameLength target ++ sep
    ++ fmt14 (fatalRewrite level (coloredLevel level) message).1 ++ sep
    ++ (fatalRewrite level (coloredLevel level) message).2

/-- The line built by `Log::log` of `src/logger/mod.rs` lines 123-129 under
`cfg(not(feature = "std"))` (empty timestamp):
`"{target} | {level :14.14} | {message}"`.  There is no sentinel handling in
this revision: the level name and the message are used verbatim. -/
def nostd_log_line (targetLength : Nat) (target : List Char) (level : Level)
    (message : List Char) : List Char :=
  renderTargetNoStd targetLength target ++ sep
    ++ fmt14 level.name ++ sep ++ message

/-- Substring test (used to state that the sentinel occurs in a line). -/
def containsSub (pat : List Char) : List Char → Bool
  | [] => pat.isEmpty
  | c :: cs => (peelOff pat (c :: cs)).isSome || containsSub pat cs

/-- The `Logger` struct of `src/logger/mod.rs` lines 86-89.  The `println`
closure is identified by an opaque id so distinct sinks can be told apart. -/
structure Logger where
  log_level : Level
  printlnId : Nat
deriving DecidableEq, Repr

/-- `Log::enabled` (`src/logger/mod.rs` lines 91-93):
`metadata.level() <= self.log_level` in the `log` crate's ordering. -/
def Logger.enabledB (lg : Logger) (l : Level) : Bool :=
  l.num ≤ lg.log_level.num

/-- The error type returned by the no-std `init_logger`
(`src/logger/mod.rs` lines 20-22). -/
inductive InitError
  | loggerAlreadySet
deriving DecidableEq, Repr

/-- `Result<(), LoggerAlreadySet>` as returned by the no-std `init_logger`. -/
inductive InitResult
  | ok
  | err (e : InitError)
deriving DecidableEq, Repr

/-- The global state of the no-std revision (`src/logger/mod.rs`):
the `LOGGER` static, the `log` crate's global logger registration
(what `set_logger_racy` succeeds or fails on), the `log` crate's max level,
and the `TARGET_LENGTH` mutex (a `u8`, initially 16). -/
structure LogGlobal where
  logger : Option Logger
  facadeSet : Bool
  maxLevel : LevelFilter
  targetLength : Nat
deriving DecidableEq, Repr

/-- Process start: no logger, facade unset, `log`'s max level `Off`,
`TARGET_LENGTH = 16`. -/
def initialState : LogGlobal :=
  { logger := none, facadeSet := false, maxLevel := .off, targetLength := 16 }

/-- `set_target_length` (`src/logger/mod.rs` lines 27-29): a *public* function
that overwrites the `TARGET_LENGTH` mutex at any time. -/
def set_target_length (st : LogGlobal) (targetLength : Nat) : LogGlobal :=
  { st with targetLength := targetLength }

/-- The no-std `init_logger` (`src/logger/mod.rs` lines 35-84) as a state
transition (the body runs under the `SETTING_LOGGER` mutex, so one call is
atomic): default level `Info`; fail if `LOGGER` is already set; store the
logger; `set_logger_racy` fails iff the `log` facade already has a logger, in
which case `LOGGER` is reset to `None`; on success set the max level and then
the target length when one was supplied. -/
def init_logger (st : LogGlobal) (logLevel? : Option Level)
    (targetLength? : Option Nat) (printlnId : Nat) : InitResult × LogGlobal :=
  let logLevel := logLevel?.getD .info
  let logger : Logger := { log_level := logLevel, printlnId := printlnId }
  if st.logger.isSome then (.err .loggerAlreadySet, st)
  else
    let st1 := { st with logger := some logger }
    if st1.facadeSet then
      (.err .loggerAlreadySet, { st1 with logger := none })
    else
      let st2 := { st1 with facadeSet := true, maxLevel := .lvl logLevel }
      match targetLength? with
      | some n => (.ok, set_target_length st2 n)
      | none => (.ok, st2)

/-- One `log` call through the no-std revision: the `log` crate's macros drop
the record unless it passes the global max level; `Log::log`
(`src/logger/mod.rs` lines 95-131) then re-checks `enabled` and hands exactly
one line to the `println` sink. -/
def LogGlobal.logRecord (st : LogGlobal) (target : List Char) (level : Level)
    (message : List Char) : Option (List Char) :=
  match st.logger with
  | none => none
  | some lg =>
    if passes level st.maxLevel then
      if lg.enabledB level then
        some (nostd_log_line st.targetLength target level message)
      else none
    else none

/-- The two sinks of the std/fern revision. -/
inductive SinkId
  | console
  | file
deriving DecidableEq, Repr

/-- `fern::Dispatch::apply` sets `log::set_max_level` to the most verbose
level of the dispatch tree: the stdout chain carries the configured
threshold, the file chain (when present) carries the hardcoded
`LevelFilter::Info` of `src/lib.rs` line 161. -/
def fernGlobalMax (threshold : LevelFilter) (fileConfigured : Bool) : LevelFilter :=
  if fileConfigured then
    if threshold.num ≥ (LevelFilter.lvl .info).num then threshold
    else .lvl .info
  else threshold

/-- One `log` call through the fern logger of `src/lib.rs` lines 136-166: the
`log` macros gate on the global max level, then each chain filters on its own
level and formats with the *same* `generate_log` (both closures capture the
same `colors` and `max_name_length`); the file chain's level is hardcoded
`Info`.  Result: the list of `(sink, line)` pairs emitted, in chain order. -/
def fernDispatch (threshold : LevelFilter) (fileConfigured : Bool)
    (maxNameLength : Nat) (date time target : List Char) (level : Level)
    (message : List Char) : List (SinkId × List Char) :=
  if passes level (fernGlobalMax threshold fileConfigured) then
    (if passes level threshold then
      [(SinkId.console, generate_log maxNameLength date time target level message)]
    else [])
    ++
    (if fileConfigured then
      (if passes level (.lvl .info) then
        [(SinkId.file, generate_log maxNameLength date time target level message)]
      else [])
    else [])
  else []

/-- The sinks selected by `fernDispatch`, independent of the payload strings
(same filter structure, lines dropped). -/
def fernSinkIds (threshold : LevelFilter) (fileConfigured : Bool)
    (level : Level) : List SinkId :=
  if passes level (fernGlobalMax threshold fileConfigured) then
    (if passes level threshold then [SinkId.console] else [])
    ++
    (if fileConfigured then
      (if passes level (.lvl .info) then [SinkId.file] else [])
    else [])
  else []

/-- An emitted record: the level and message handed to the `log` facade. -/
structure FatalEmit where
  level : Level
  message : List Char
deriving DecidableEq, Repr

/-- What happens after the record is emitted by a `fatal!` expansion. -/
inductive FatalTermination
  | exitCode (code : Nat)
  | callback (id : Nat)
  | noop
deriving DecidableEq, Repr

/-- A value stored in `ON_FATAL` (`src/macros/on_fatal.rs`): either the
default std closure `|| std::process::exit(1)` or a user-supplied one. -/
inductive FatalCallback
  | exit1
  | user (id : Nat)
deriving DecidableEq, Repr

/-- Invoking a stored callback. -/
def runCallback : FatalCallback → FatalTermination
  | .exit1 => .exitCode 1
  | .user i => .callback i

/-- `ON_FATAL` initial value with the `std` feature
(`src/macros/on_fatal.rs` line 10). -/
def onFatalDefaultStd : Option FatalCallback :=
  some .exit1

/-- `ON_FATAL` initial value without the `std` feature
(`src/macros/on_fatal.rs` line 7). -/
def onFatalDefaultNoStd : Option FatalCallback :=
  none

/-- The message built by the std revision's `fatal!` (`src/macros.rs` lines
246-264): when the `INTERNAL__LOGGER_ACTIVE` latch is set, the sentinel is
prepended to the formatted message; otherwise the message goes out verbatim. -/
def fatalMessageStd (latch : Bool) (message : List Char) : List Char :=
  if latch then sentinel ++ message else message

/-- The std revision's `fatal!` macro (`src/macros.rs` lines 246-268): emit an
`Error` record (sentinel-prefixed iff the latch is set), then *unconditionally*
`std::process::exit(1)`. -/
def fatal_std (latch : Bool) (message : List Char) :
    FatalEmit × FatalTermination :=
  ({ level := .error, message := fatalMessageStd latch message }, .exitCode 1)

/-- The no-std revision's `fatal!` macro (`src/macros/mod.rs` lines 161-174):
emit an `Error` record with the message *verbatim* (no sentinel, no latch
test), then invoke the `ON_FATAL` callback when one is stored. -/
def fatal_nostd (onFatal : Option FatalCallback) (message : List Char) :
    FatalEmit × FatalTermination :=
  ({ level := .error, message := message },
    match onFatal with
    | some cb => runCallback cb
    | none => .noop)

/-- Operations of the std revision that are relevant to the
`INTERNAL__LOGGER_ACTIVE` latch. -/
inductive StdOp
  | initLogger
  | logRecord
  | fatalCall
deriving DecidableEq, Repr

/-- Effect of one operation on the `INTERNAL__LOGGER_ACTIVE` `OnceLock`
(`src/lib.rs` lines 30 and 172-176): only a completed `init_logger` sets it;
nothing ever clears a `OnceLock`. -/
def latchStep (latch : Bool) : StdOp → Bool
  | .initLogger => true
  | .logRecord => latch
  | .fatalCall => latch

/-- The latch after a sequence of operations. -/
def latchRun (latch : Bool) (ops : List StdOp) : Bool :=
  ops.foldl latchStep latch

/-- Outcome of the std revision's `init_logger` (`src/lib.rs` lines 89-177):
it returns `()` on success and reaches `fatal!` (hence `exit(1)`) on failure,
never a `Result`. -/
inductive StdInitOutcome
  | ok
  | fatalExit (code : Nat)
deriving DecidableEq, Repr

/-- The std revision's `init_logger` as a transition on
`(log-facade-set, latch)`: `logger.apply()` fails iff the `log` facade already
holds a logger, and that failure runs `fatal!`, i.e. exits with code 1
(`src/lib.rs` lines 168-176); then `INTERNAL__LOGGER_ACTIVE.set(())` failing
(latch already set) also runs `fatal!`. -/
def init_logger_std (facadeSet latch : Bool) :
    StdInitOutcome × Bool × Bool :=
  if facadeSet then (.fatalExit 1, facadeSet, latch)
  else if latch then (.fatalExit 1, true, latch)
  else (.ok, true, true)

/-- Peeling a pattern off a string that starts with it yields the remainder
(the defining property of `str::strip_prefix` on a matching input). -/
theorem peelOff_append_self (p : List Char) : ∀ s : List Char, peelOff p (p ++ s) = some s := by
  induction p with
  | nil => intro s; rfl
  | cons c cs ih => intro s; simp [peelOff, ih]

/-- Every `generate_log` output starts with the ANSI dim+bold escape of the
timestamp, hence contains the escape character. -/
theorem generate_log_mem_esc (w : Nat) (date time target message : List Char)
    (level : Level) : '\x1b' ∈ generate_log w date time target level message := by
  simp only [generate_log, dimBold, List.append_assoc]
  exact List.mem_append.mpr (Or.inl (by decide))

end Goolog

namespace Goolog

/-- Claim C1 (code bug): the spec demands exactly `w` scalar values for width
`w > 0`; `to_fixed_size` of `src/lib.rs` delivers that (here: the one-char,
two-byte target `"é"` at width 4 becomes `"é"` plus three spaces), but the
no-std renderer of `src/logger/mod.rs` measures the target with the UTF-8
*byte* length `name.len()` while iterating *chars*, so the same input yields
`"é"` plus only two spaces — 3 scalar values instead of 4. -/
theorem target_width_byte_bug :
    to_fixed_size 4 (("é").data) = (("é   ").data)
    ∧ renderTargetNoStd 4 (("é").data) = (("é  ").data)
    ∧ (renderTargetNoStd 4 (("é").data)).length = 3 := by
  decide

/-- Claim C2 counterexample: the no-std logger (`src/logger/mod.rs`) has no
sentinel handling.  With the default install, an ERROR record whose message
starts with `$goolog:fatal=` is emitted with level field `ERROR` and the
sentinel verbatim in the sink's line. -/
theorem nostd_sentinel_leak :
    LogGlobal.logRecord ((init_logger initialState none none 0).2)
      (("Main").data) .error (sentinel ++ ("disk full").data)
      = some (("Main             | ERROR          | $goolog:fatal=disk full").data)
    ∧ containsSub sentinel
        (("Main             | ERROR          | $goolog:fatal=disk full").data) = true := by
  decide

/-- Claim C2 (amended): in the std/fern formatter `generate_log`
(`src/lib.rs`, feature `std_fatal` off), an ERROR record whose message starts
with `$goolog:fatal=` is rendered with the red level field reading `FATAL` and
with exactly the suffix after `=` as message — the sentinel is stripped.  The
no-std logger prints such records verbatim (see the counterexample). -/
theorem generate_log_fatal_rewrite (w : Nat) (date time target suffix : List Char) :
    generate_log w date time target .error (sentinel ++ suffix)
      = dimBold date ++ sep ++ dimBold time ++ sep ++ to_fixed_size w target ++ sep
        ++ ("\x1b[31mFATAL\x1b[0m").data ++ sep ++ suffix := by
  have hpeel : peelOff sentinel (sentinel ++ suffix) = some suffix :=
    peelOff_append_self sentinel suffix
  have hlev : fmt14 (fatalRewrite .error (coloredLevel .error) (sentinel ++ suffix)).1
      = ("\x1b[31mFATAL\x1b[0m").data := by
    simp [fatalRewrite, hpeel]
    decide
  have hmsg : (fatalRewrite .error (coloredLevel .error) (sentinel ++ suffix)).2 = suffix := by
    simp [fatalRewrite, hpeel]
  simp only [generate_log, hlev, hmsg]

/-- Claim C3 counterexample: in the std/fern revision (`src/lib.rs`), a first
`init_logger` succeeds but a second call does not return an
AlreadyInstalled/InstallConflict error — it reaches `fatal!` and terminates
the process with exit code 1. -/
theorem init_logger_std_second_call_exits :
    init_logger_std false false = (.ok, true, true)
    ∧ (init_logger_std true true).1 = .fatalExit 1 := by
  decide

/-- Claim C3 (amended): the Result-based no-std `init_logger`
(`src/logger/mod.rs`) is write-once as claimed: after one successful call,
every subsequent call returns `LoggerAlreadySet` and leaves the whole global
state — in particular the installed logger — unchanged.  The std/fern
`init_logger` instead exits the process on a second call (see the
counterexample). -/
theorem init_logger_write_once (st st' : LogGlobal) (ll : Option Level)
    (tl : Option Nat) (pr : Nat) (h : init_logger st ll tl pr = (.ok, st'))
    (ll2 : Option Level) (tl2 : Option Nat) (pr2 : Nat) :
    init_logger st' ll2 tl2 pr2 = (.err .loggerAlreadySet, st') := by
  obtain ⟨l, f, m, t⟩ := st
  cases l with
  | some lg => simp [init_logger] at h
  | none =>
    cases f with
    | true => simp [init_logger] at h
    | false =>
      cases tl with
      | some n =>
        simp [init_logger, set_target_length] at h
        rw [← h]
        simp [init_logger]
      | none =>
        simp [init_logger] at h
        rw [← h]
        simp [init_logger]

/-- Claim C3 witness: installing from the pristine state succeeds, and a
second install returns the error and keeps the state. -/
theorem init_logger_write_once_witness :
    init_logger ((init_logger initialState none none 0).2) none none 1
      = (.err .loggerAlreadySet, (init_logger initialState none none 0).2) :=
  init_logger_write_once initialState ((init_logger initialState none none 0).2)
    none none 0 (by decide) none none 1

/-- Claim C9: whenever the no-std `init_logger` returns `LoggerAlreadySet`,
the global state is returned unchanged: the logger slot, the max level and
the stored target length all keep their prior values, even when a
`target_length` argument was supplied to the failing call. -/
theorem init_logger_failure_frame (st : LogGlobal) (ll : Option Level)
    (tl : Option Nat) (pr : Nat)
    (h : (init_logger st ll tl pr).1 = .err .loggerAlreadySet) :
    (init_logger st ll tl pr).2 = st := by
  obtain ⟨l, f, m, t⟩ := st
  cases l with
  | some lg => simp [init_logger]
  | none =>
    cases f with
    | true => simp [init_logger]
    | false =>
      cases tl with
      | some n => simp [init_logger, set_target_length] at h
      | none => simp [init_logger] at h

/-- Claim C9 witness: a failing second install that supplies both a level and
a target length leaves the state of the first install intact. -/
theorem init_logger_failure_frame_witness :
    (init_logger ((init_logger initialState none none 0).2) (some .debug) (some 4) 7).2
      = (init_logger initialState none none 0).2 :=
  init_logger_failure_frame ((init_logger initialState none none 0).2)
    (some .debug) (some 4) 7 (by decide)

/-- Projecting the sinks out of a fern dispatch forgets the payload. -/
theorem fernDispatch_map_fst (th : LevelFilter) (fc : Bool) (w : Nat)
    (date time target message : List Char) (level : Level) :
    (fernDispatch th fc w date time target level message).map Prod.fst
      = fernSinkIds th fc level := by
  unfold fernDispatch fernSinkIds
  split_ifs <;> simp

/-- Claim C4 counterexample: with a file configured, the file chain of the
std/fern `init_logger` is hardcoded to `LevelFilter::Info` (`src/lib.rs` line
161).  At installed threshold DEBUG, a DEBUG record passes the threshold but
only the console receives a line; at installed threshold WARN, an INFO record
is below the threshold yet the file sink still receives a line. -/
theorem fern_dispatch_threshold_mismatch :
    ((fernDispatch (.lvl .debug) true 16 ([]) ([]) (("Main").data) .debug
        (("m").data)).map Prod.fst = [SinkId.console])
    ∧ ((fernDispatch (.lvl .warn) true 16 ([]) ([]) (("Main").data) .info
        (("m").data)).map Prod.fst = [SinkId.file]) := by
  decide

/-- Claim C4 (amended): in the std/fern revision the console sink receives
exactly one line iff the record passes the installed threshold, while the file
sink (when configured) receives exactly one line iff the record's level is at
least INFO, regardless of the installed threshold.  In the no-std revision
the claim holds as stated: its single sink receives exactly one line iff the
record passes the installed max level, and nothing otherwise. -/
theorem dispatch_fanout (th : LevelFilter) (fc : Bool) (w : Nat)
    (date time target message : List Char) (level : Level) (st' : LogGlobal)
    (ll : Option Level) (tl : Option Nat) (pr : Nat)
    (h : init_logger initialState ll tl pr = (.ok, st')) :
    ((fernDispatch th fc w date time target level message).map Prod.fst
      = (if passes level th then [SinkId.console] else [])
        ++ (if fc && passes level (.lvl .info) then [SinkId.file] else []))
    ∧ ((st'.logRecord target level message).isSome = passes level st'.maxLevel) := by
  constructor
  · rw [fernDispatch_map_fst]
    rcases th with _ | lt
    · cases fc <;> cases level <;> decide
    · cases lt <;> cases fc <;> cases level <;> decide
  · cases tl with
    | some n =>
      simp [init_logger, initialState, set_target_length] at h
      rw [← h]
      rcases ll with _ | l0
      · cases level <;>
          simp [LogGlobal.logRecord, Logger.enabledB, passes, Level.num,
            LevelFilter.num]
      · cases l0 <;> cases level <;>
          simp [LogGlobal.logRecord, Logger.enabledB, passes, Level.num,
            LevelFilter.num]
    | none =>
      simp [init_logger, initialState] at h
      rw [← h]
      rcases ll with _ | l0
      · cases level <;>
          simp [LogGlobal.logRecord, Logger.enabledB, passes, Level.num,
            LevelFilter.num]
      · cases l0 <;> cases level <;>
          simp [LogGlobal.logRecord, Logger.enabledB, passes, Level.num,
            LevelFilter.num]

/-- Claim C4 witness: at the default install, an INFO record yields exactly
the console line (no file configured) and exactly one no-std sink line. -/
theorem dispatch_fanout_witness :
    ((fernDispatch (.lvl .info) false 16 ([]) ([]) (("Main").data) .info
        (("m").data)).map Prod.fst
      = (if passes .info (.lvl .info) then [SinkId.console] else [])
        ++ (if false && passes .info (.lvl .info) then [SinkId.file] else []))
    ∧ (((init_logger initialState none none 0).2.logRecord (("Main").data) .info
        (("m").data)).isSome
      = passes .info ((init_logger initialState none none 0).2.maxLevel)) :=
  dispatch_fanout (.lvl .info) false 16 ([]) ([]) (("Main").data) (("m").data)
    .info ((init_logger initialState none none 0).2) none none 0 (by decide)

/-- Claim C5 counterexample: installing with a log file and logging an INFO
record hands the file sink a line produced by the colorized `generate_log`; the
line contains the ANSI escape character, contradicting the plain-policy claim. -/
theorem file_sink_line_has_ansi :
    (SinkId.file,
      generate_log 16 (("02.01.2024").data) (("03:04:05").data) (("Main").data)
        .info (("Hello World!").data))
      ∈ fernDispatch (.lvl .info) true 16 (("02.01.2024").data)
        (("03:04:05").data) (("Main").data) .info (("Hello World!").data)
    ∧ '\x1b' ∈ generate_log 16 (("02.01.2024").data) (("03:04:05").data)
        (("Main").data) .info (("Hello World!").data) := by
  decide

/-- Claim C5 (amended): both fern chains — the file one included — format with
the same colorized `generate_log` closure, so every line any sink receives
contains ANSI escape sequences. -/
theorem fern_lines_colorized (th : LevelFilter) (fc : Bool) (w : Nat)
    (date time target message : List Char) (level : Level)
    (p : SinkId × List Char)
    (hp : p ∈ fernDispatch th fc w date time target level message) :
    '\x1b' ∈ p.2 := by
  have hansi : '\x1b' ∈ generate_log w date time target level message :=
    generate_log_mem_esc w date time target message level
  unfold fernDispatch at hp
  split_ifs at hp <;> simp at hp
  all_goals try rcases hp with rfl | rfl
  all_goals exact hansi

/-- Claim C5 witness: the console line of a concrete INFO record contains the
escape character. -/
theorem fern_lines_colorized_witness :
    '\x1b' ∈ generate_log 16 (("02.01.2024").data) (("03:04:05").data)
      (("Main").data) .info (("Hi").data) :=
  fern_lines_colorized (.lvl .info) false 16 (("02.01.2024").data)
    (("03:04:05").data) (("Main").data) (("Hi").data) .info
    (SinkId.console,
      generate_log 16 (("02.01.2024").data) (("03:04:05").data) (("Main").data)
        .info (("Hi").data))
    (by decide)

/-- Claim C6 counterexample: after a successful install, the public
`set_target_length` changes the stored width from its install-time value 16 to
4, and a subsequent log call renders its target with the new width — the
output line differs. -/
theorem set_target_length_after_install :
    ((init_logger initialState none none 0).2.targetLength = 16)
    ∧ ((set_target_length ((init_logger initialState none none 0).2) 4).targetLength = 4)
    ∧ ((set_target_length ((init_logger initialState none none 0).2) 4).logRecord
        (("Main").data) .info (("m").data)
      ≠ (init_logger initialState none none 0).2.logRecord
        (("Main").data) .info (("m").data)) := by
  decide

/-- Claim C6 (amended): the width is a mutable global (`TARGET_LENGTH`), not
immutable after install: the public `set_target_length` overwrites it at any
time while leaving the installed logger untouched, and every log call renders
targets with the width current at that call. -/
theorem set_target_length_mutates_width (st : LogGlobal) (lg : Logger) (n : Nat)
    (target message : List Char) (level : Level)
    (hlg : st.logger = some lg) (hmax : passes level st.maxLevel = true)
    (hen : lg.enabledB level = true) :
    (set_target_length st n).targetLength = n
    ∧ (set_target_length st n).logger = st.logger
    ∧ (set_target_length st n).logRecord target level message
      = some (nostd_log_line n target level message) := by
  refine ⟨rfl, rfl, ?_⟩
  simp [set_target_length, LogGlobal.logRecord, hlg, hmax, hen]

/-- Claim C6 witness: shrinking the width to 4 after the default install makes
the next INFO line render its target at width 4. -/
theorem set_target_length_mutates_width_witness :
    (set_target_length ((init_logger initialState none none 0).2) 4).targetLength = 4
    ∧ (set_target_length ((init_logger initialState none none 0).2) 4).logger
      = ((init_logger initialState none none 0).2).logger
    ∧ (set_target_length ((init_logger initialState none none 0).2) 4).logRecord
        (("Main").data) .info (("m").data)
      = some (nostd_log_line 4 (("Main").data) .info (("m").data)) :=
  set_target_length_mutates_width ((init_logger initialState none none 0).2)
    { log_level := .info, printlnId := 0 } 4 (("Main").data) (("m").data) .info
    (by decide) (by decide) (by decide)

/-- Claim C7 counterexample: the no-std `fatal!` (`src/macros/mod.rs`) emits
the formatted message verbatim — no `$goolog:fatal=` sentinel is prepended
even though the default `ON_FATAL` callback (std) is installed — and the
claimed branching on the logger-active latch does not exist in this macro. -/
theorem fatal_nostd_no_sentinel :
    (fatal_nostd onFatalDefaultStd (("disk full").data)).1.message = (("disk full").data)
    ∧ peelOff sentinel (fatal_nostd onFatalDefaultStd (("disk full").data)).1.message = none
    ∧ (fatal_nostd onFatalDefaultStd (("disk full").data)).2 = .exitCode 1 := by
  decide

/-- Claim C7 (amended): the two `fatal!` revisions split the claimed behavior.
The std/fern macro (`src/macros.rs`) emits an ERROR record whose message is
sentinel-prefixed iff the logger-active latch is set, then unconditionally
exits with status 1 (no configurable callback).  The no-std macro
(`src/macros/mod.rs`) emits the ERROR record verbatim (never the sentinel) and
then invokes the currently configured `ON_FATAL` callback, whose std default
is the exit-1 closure and which is absent (no-op) without std. -/
theorem fatal_behavior (latch : Bool) (message : List Char)
    (cb : Option FatalCallback) :
    (fatal_std latch message).1.level = .error
    ∧ (fatal_std latch message).1.message
      = (if latch then sentinel ++ message else message)
    ∧ (fatal_std latch message).2 = .exitCode 1
    ∧ (fatal_nostd cb message).1.level = .error
    ∧ (fatal_nostd cb message).1.message = message
    ∧ (fatal_nostd cb message).2
      = (match cb with | some c => runCallback c | none => .noop)
    ∧ onFatalDefaultStd = some .exit1
    ∧ runCallback .exit1 = .exitCode 1
    ∧ onFatalDefaultNoStd = none :=
  ⟨rfl, rfl, rfl, rfl, rfl, rfl, rfl, rfl, rfl⟩

/-- Claim C8: line rendering is deterministic and idempotent — formatting the
same record twice with the same width, the same captured timestamp components
and the same formatter (both the std/fern `generate_log` and the no-std line
builder are pure functions of those inputs) yields identical character
sequences, hence byte-identical output. -/
theorem render_deterministic (w w' : Nat) (d d' t t' tg tg' m m' : List Char)
    (l l' : Level) (hw : w = w') (hd : d = d') (ht : t = t') (htg : tg = tg')
    (hl : l = l') (hm : m = m') :
    generate_log w d t tg l m = generate_log w' d' t' tg' l' m'
    ∧ nostd_log_line w tg l m = nostd_log_line w' tg' l' m' := by
  subst hw hd ht htg hl hm
  exact ⟨rfl, rfl⟩

/-- Claim C8 witness: rendering a concrete record twice gives the same line. -/
theorem render_deterministic_witness :
    generate_log 16 (("02.01.2024").data) (("03:04:05").data) (("Main").data)
        .info (("Hello World!").data)
      = generate_log 16 (("02.01.2024").data) (("03:04:05").data)
        (("Main").data) .info (("Hello World!").data)
    ∧ nostd_log_line 16 (("Main").data) .info (("Hello World!").data)
      = nostd_log_line 16 (("Main").data) .info (("Hello World!").data) :=
  render_deterministic 16 16 (("02.01.2024").data) (("02.01.2024").data)
    (("03:04:05").data) (("03:04:05").data) (("Main").data) (("Main").data)
    (("Hello World!").data) (("Hello World!").data) .info .info
    rfl rfl rfl rfl rfl rfl

/-- Claim C10: the `INTERNAL__LOGGER_ACTIVE` latch is monotone — once true it
stays true under every further operation, only a completed `init_logger` turns
it on from false, and with the latch set every later `fatal_std` emission
takes the sentinel branch. -/
theorem latch_monotone (b : Bool) (ops : List StdOp) (op : StdOp)
    (message : List Char) (hb : b = true) (hop : latchStep false op = true) :
    latchRun b ops = true
    ∧ op = .initLogger
    ∧ (fatal_std (latchRun b ops) message).1.message = sentinel ++ message := by
  subst hb
  have hrun : ∀ os : List StdOp, latchRun true os = true := by
    intro os
    induction os with
    | nil => rfl
    | cons o os ih => cases o <;> simpa [latchRun, latchStep] using ih
  refine ⟨hrun ops, ?_, ?_⟩
  · cases op with
    | initLogger => rfl
    | logRecord => simp [latchStep] at hop
    | fatalCall => simp [latchStep] at hop
  · rw [hrun ops]
    simp [fatal_std, fatalMessageStd]

/-- Claim C10 witness: the latch set by install survives later operations, and
a fatal call afterwards emits the sentinel-prefixed message. -/
theorem latch_monotone_witness :
    latchRun true [StdOp.logRecord, StdOp.fatalCall] = true
    ∧ StdOp.initLogger = StdOp.initLogger
    ∧ (fatal_std (latchRun true [StdOp.logRecord, StdOp.fatalCall])
        (("x").data)).1.message = sentinel ++ (("x").data) :=
  latch_monotone true [StdOp.logRecord, StdOp.fatalCall] StdOp.initLogger
    (("x").data) rfl rfl

end Goolog
